import Mathlib

/-!
Shallow embedding of the resilient-extraction pipeline of
`src/blood_test_kits_scraper.py` (bloedwaardentest-scraper).

Pure Python functions become Lean functions; the browser/page object is
replaced by an explicit environment recording the outcome of each
document-API call (a structural query either returns data or raises,
modelled with `Except`); Python `try/except` blocks become `match` on
those `Except` values at exactly the places the source catches.
Python `float` prices are modelled as exact decimal amounts
(numerator over a power of ten), since every price text on the site is
a decimal literal; `Amount.toRat` gives the numeric value.
-/

/-- A biomarker set as produced by the extractor: either a flat ordered
list of names, or an ordered list of `(category, markers)` groups.
`count_biomarkers` distinguishes the two by `isinstance(biomarkers[0], dict)`
(line 506 of the source). -/
inductive BiomarkerSet where
  | flat (names : List String)
  | categorized (groups : List (String × List String))
deriving DecidableEq, Repr

/-- Python truthiness of a biomarker list (`if biomarkers:`): nonempty. -/
def biomarkerSetNonempty : BiomarkerSet → Bool
  | .flat names => !names.isEmpty
  | .categorized groups => !groups.isEmpty

/-- Embedding of `count_biomarkers` (source lines 490-518): empty input
gives `(0, None)`; a list whose first element is a dict gives the sum of
the group marker counts and the number of groups; a flat list gives its
length and `None`. -/
def count_biomarkers : BiomarkerSet → Nat × Option Nat
  | .flat names => (names.length, none)
  | .categorized groups =>
      match groups with
      | [] => (0, none)
      | g :: gs => (((g :: gs).map (fun c => c.2.length)).sum, some (g :: gs).length)

/-- An exact nonnegative decimal amount `num / 10 ^ scale`, standing in for
the Python `float` returned by the price parser (all price texts on the
site are decimal literals, so this is exact). -/
structure Amount where
  num : Nat
  scale : Nat
deriving DecidableEq, Repr

/-- Numeric value of an `Amount`. -/
def Amount.toRat (a : Amount) : Rat := (a.num : Rat) / (10 : Rat) ^ a.scale

/-- Numeric test `price_number == 0` on a parsed amount. -/
def amountIsZero (a : Amount) : Bool := a.num == 0

/-- Digit characters to the number they denote. -/
def digitsToNat (ds : List Char) : Nat :=
  ds.foldl (fun a c => a * 10 + (c.toNat - 48)) 0

/-- Model of the external `price_parser` library call
`Price.fromstring` used by `convert_price_to_number`: scan to the first
digit; read the run of digits as the integer part; a following comma or
dot directly followed by a digit starts the fractional digits
(locale-aware decimal separator); text with no digit at all has no
amount. This reproduces the library behaviour on the price texts this
site produces. -/
def priceFromString (s : String) : Option Amount :=
  let cs := s.toList.dropWhile (fun c => !c.isDigit)
  if cs.isEmpty then none
  else
    let intDigits := cs.takeWhile Char.isDigit
    let rest := cs.dropWhile Char.isDigit
    match rest with
    | sep :: d :: _ =>
        if (sep == ',' || sep == '.') && d.isDigit then
          let fracDigits := (rest.drop 1).takeWhile Char.isDigit
          some ⟨digitsToNat intDigits * 10 ^ fracDigits.length + digitsToNat fracDigits,
                fracDigits.length⟩
        else some ⟨digitsToNat intDigits, 0⟩
    | _ => some ⟨digitsToNat intDigits, 0⟩

/-- Embedding of `convert_price_to_number` (source lines 182-191): parse
via the price-parser model; `None` when no numeric amount is found; the
surrounding `try/except` also yields `None`, so the function is total. -/
def convert_price_to_number (price_text : String) : Option Amount :=
  priceFromString price_text

/-- The raw price texts recognised as zero prices at source line 203. -/
def zeroPriceTexts : List String := ["0", "0,-", "€0", "€0,-"]

/-- Python `price_number == 0` where `price_number` may be `None`
(`None == 0` is `False`). -/
def optAmountIsZero : Option Amount → Bool
  | some a => amountIsZero a
  | none => false

/-- Text-level core of `get_product_price` (source lines 198-208), applied
to the stripped text of the price element: if the parsed amount is exactly
zero or the raw text is a known zero pattern, return the zero-price
terminal signal (the literal `0`, modelled `⟨0, 0⟩`); otherwise return the
parse result (which may be `None`). -/
def get_product_price_text (price_text : String) : Option Amount :=
  let price_number := convert_price_to_number price_text
  if optAmountIsZero price_number || zeroPriceTexts.contains price_text then
    some ⟨0, 0⟩
  else price_number

/-- Python `str.strip()`: drop whitespace from both ends. -/
def stripText (s : String) : String :=
  String.mk ((s.toList.dropWhile Char.isWhitespace).reverse.dropWhile Char.isWhitespace).reverse

/-- Embedding of `get_product_price` (source lines 193-214). The argument
is the outcome of waiting for and reading the price element:
`.error` when the selector wait or text extraction raises (caught at
line 212, returning `None`), `.ok none` when the element is absent,
`.ok (some t)` when the element holds text `t` (stripped at line 199). -/
def get_product_price (priceElement : Except String (Option String)) : Option Amount :=
  match priceElement with
  | .error _ => none
  | .ok none => none
  | .ok (some t) => get_product_price_text (stripText t)

/-- The state of a loaded product document as the extractor sees it: the
outcome of each document-API call it makes. `.error e` means the call
raised with message `e`; `.ok` carries the data the in-page script
returned (after its own filtering, which runs inside the browser). -/
structure BPage where
  expandOutcome : Except String Bool
  orderedQuery : Except String (List String)
  categorizedQuery : Except String (List (String × List String))
  unorderedQuery : Except String (List String)

/-- Embedding of `expand_read_more` (source lines 283-348): the body's
outcome, with the `except` at line 346 turning any raise into `False`. -/
def expand_read_more (p : BPage) : Bool :=
  match p.expandOutcome with
  | .ok b => b
  | .error _ => false

/-- Embedding of `extract_biomarkers_from_ordered_list` (source lines
675-753): the in-page query result, with the `except` at line 751
turning any raise into `[]`. -/
def extract_biomarkers_from_ordered_list (p : BPage) : List String :=
  match p.orderedQuery with
  | .ok ms => ms
  | .error _ => []

/-- Embedding of `extract_biomarkers_from_content` (source lines 350-399):
the in-page query result, with the `except` at line 397 turning any raise
into `[]`. -/
def extract_biomarkers_from_content (p : BPage) : List (String × List String) :=
  match p.categorizedQuery with
  | .ok ms => ms
  | .error _ => []

/-- The last-resort unordered-list extraction inlined in
`get_product_biomarkers` (source lines 423-446): selector wait plus
in-page query, whose own `except` at line 445 turns any raise into
falling through with no result. -/
def unordered_list_items (p : BPage) : List String :=
  match p.unorderedQuery with
  | .ok ms => ms
  | .error _ => []

/-- The body of `get_product_biomarkers` (source lines 401-449) inside its
outer `try`, in the `Except` monad: first expand the content (result
discarded at line 405), then try the three strategies in order, returning
the first non-empty result, else an empty flat list. Every sub-step
catches its own raises, so no `.error` is ever produced. -/
def get_product_biomarkersE (p : BPage) : Except String BiomarkerSet :=
  let _expanded := expand_read_more p
  let ordered_list_markers := extract_biomarkers_from_ordered_list p
  if !ordered_list_markers.isEmpty then .ok (.flat ordered_list_markers)
  else
    let biomarkers := extract_biomarkers_from_content p
    if !biomarkers.isEmpty then .ok (.categorized biomarkers)
    else
      let simple_markers := unordered_list_items p
      if !simple_markers.isEmpty then .ok (.flat simple_markers)
      else .ok (.flat [])

/-- Embedding of `get_product_biomarkers` (source lines 401-453): the body
with the outer `except` at line 451 turning any raise into `[]`. -/
def get_product_biomarkers (p : BPage) : BiomarkerSet :=
  match get_product_biomarkersE p with
  | .ok b => b
  | .error _ => .flat []

/-- The three extraction strategies of `get_product_biomarkers`, in their
precedence order. -/
inductive Strategy where
  | ordered
  | categorized
  | unordered
deriving DecidableEq, Repr

/-- Instrumented form of `get_product_biomarkers` that also records which
strategies were invoked, in order; the result component follows the
source control flow exactly as `get_product_biomarkersE` does. -/
def get_product_biomarkers_traced (p : BPage) : BiomarkerSet × List Strategy :=
  let ordered_list_markers := extract_biomarkers_from_ordered_list p
  if !ordered_list_markers.isEmpty then (.flat ordered_list_markers, [.ordered])
  else
    let biomarkers := extract_biomarkers_from_content p
    if !biomarkers.isEmpty then (.categorized biomarkers, [.ordered, .categorized])
    else
      let simple_markers := unordered_list_items p
      if !simple_markers.isEmpty then
        (.flat simple_markers, [.ordered, .categorized, .unordered])
      else (.flat [], [.ordered, .categorized, .unordered])

/-- One load strategy of `try_load_page`: a wait condition and a timeout
(source lines 461-465). -/
structure LoadStrategy where
  wait_until : String
  timeout : Nat
deriving DecidableEq, Repr

/-- The escalating strategy list of `try_load_page`. -/
def loadStrategies : List LoadStrategy :=
  [⟨"domcontentloaded", 30000⟩, ⟨"load", 60000⟩, ⟨"networkidle", 90000⟩]

/-- Observable events of a `try_load_page` run: a `page.goto` attempt in a
given retry round with a given strategy index, or a backoff sleep of a
given number of seconds. -/
inductive LoadEvent where
  | goto (round strategyIdx : Nat)
  | backoff (seconds : Nat)
deriving DecidableEq, Repr

/-- Inner strategy loop of one retry round (source lines 468-480):
attempt the strategies at the given indices in order; stop at the first
whose `goto` succeeds (`oc round idx = true`). Returns the events and
whether the round succeeded. -/
def round_attempts (oc : Nat → Nat → Bool) (round : Nat) : List Nat → List LoadEvent × Bool
  | [] => ([], false)
  | j :: rest =>
      if oc round j then ([LoadEvent.goto round j], true)
      else
        let r := round_attempts oc round rest
        (LoadEvent.goto round j :: r.1, r.2)

/-- One full retry round over all strategies. -/
def load_round (oc : Nat → Nat → Bool) (round : Nat) : List LoadEvent × Bool :=
  round_attempts oc round (List.range loadStrategies.length)

/-- Outer retry loop of `try_load_page` (source lines 467-488), by the
number of remaining rounds: a successful round returns `True` at once; a
failed non-final round sleeps `(round + 1) * 5` seconds before the next;
after the final failed round the function returns `False`. -/
def load_loop (oc : Nat → Nat → Bool) : Nat → Nat → Bool × List LoadEvent
  | 0, _ => (false, [])
  | remaining + 1, round =>
      let r := load_round oc round
      if r.2 then (true, r.1)
      else if remaining = 0 then (false, r.1)
      else
        let next := load_loop oc remaining (round + 1)
        (next.1, r.1 ++ LoadEvent.backoff ((round + 1) * 5) :: next.2)

/-- Embedding of `try_load_page` (source lines 455-488) with the default
`max_retries = 3`, parameterised by the per-(round, strategy) `goto`
outcome. Returns the result and the event trace. -/
def try_load_page (oc : Nat → Nat → Bool) : Bool × List LoadEvent :=
  load_loop oc 3 0

/-- A product record as the scraper's dict: stub fields plus the fields
the visitor and store add. Absent keys are modelled by the defaults
(`none`, `false`), matching `product.get('skipped', False)` and the
conditional presence of `category_count`, `error` and `reason`. -/
structure ProductRecord where
  name : String := ""
  link : String := ""
  source_url : String := ""
  price : Option Amount := none
  biomarkers : BiomarkerSet := .flat []
  biomarker_count : Nat := 0
  category_count : Option Nat := none
  extraction_attempts : Option Nat := none
  error : Option String := none
  skipped : Bool := false
  reason : Option String := none
deriving DecidableEq, Repr

/-- The per-visit environment: outcome of the page load, of the cookie
dialog handling, of the content wait, of reading the price element, and
the document state each of the three biomarker-extraction attempts sees
(the page can change between attempts). -/
structure VisitEnv where
  loadOk : Bool
  cookieOutcome : Except String Bool
  contentWaitOutcome : Except String Unit
  priceElement : Except String (Option String)
  attemptPage1 : BPage
  attemptPage2 : BPage
  attemptPage3 : BPage

/-- Embedding of `handle_cookies` (source lines 121-134): the body's
outcome with the `except` at line 132 turning any raise into `False`. -/
def handle_cookies (outcome : Except String Bool) : Bool :=
  match outcome with
  | .ok b => b
  | .error _ => false

/-- Python truthiness of the optional category count at source line 597
(`if category_count:`): present and nonzero. -/
def optNatTruthy : Option Nat → Bool
  | none => false
  | some n => n != 0

/-- The biomarker retry loop of `visit_product_page` (source lines
561-586): up to `max_attempts` attempts, each expanding the content
(result only affecting a sleep) and calling `get_product_biomarkers`,
stopping at the first non-empty result. Returns the final `biomarkers`
value and `attempt + 1` for the last attempt run. -/
def biomarker_attempt_loop : List BPage → Nat → BiomarkerSet → BiomarkerSet × Nat
  | [], n, biomarkers => (biomarkers, n)
  | p :: rest, n, _ =>
      let _expanded := expand_read_more p
      let b := get_product_biomarkers p
      if biomarkerSetNonempty b then (b, n + 1)
      else biomarker_attempt_loop rest (n + 1) b

/-- Embedding of `visit_product_page` (source lines 520-618). The outer
`try` covers the whole body; the only raise that reaches it is the
explicit one on load failure (line 531), since every later step catches
its own exceptions; the `except` at line 612 turns it into an error
record with `price=None`, `biomarkers=[]` and `error` set. On a zero
price the skip record is returned before any extraction. Otherwise the
retry loop runs, counts are derived with `count_biomarkers`, and a
missing result sets an explanatory `error` on an otherwise normal
record. -/
def visit_product_page (env : VisitEnv) (product : ProductRecord) : ProductRecord :=
  if env.loadOk then
    let _cookies := handle_cookies env.cookieOutcome
    let _contentSeen := match env.contentWaitOutcome with
      | .ok _ => true
      | .error _ => false
    let price := get_product_price env.priceElement
    if (match price with | some a => amountIsZero a | none => false) then
      { product with
          price := some ⟨0, 0⟩, biomarkers := .flat [], biomarker_count := 0,
          skipped := true, reason := some "Zero price product" }
    else
      let loopResult :=
        biomarker_attempt_loop [env.attemptPage1, env.attemptPage2, env.attemptPage3] 0 (.flat [])
      let biomarkers := loopResult.1
      let counts := count_biomarkers biomarkers
      let updated :=
        { product with
            price := price, biomarkers := biomarkers,
            extraction_attempts := some loopResult.2,
            biomarker_count := counts.1,
            category_count := if optNatTruthy counts.2 then counts.2 else product.category_count }
      if counts.1 = 0 then
        { updated with error := some "No biomarkers found after multiple attempts" }
      else updated
  else
    { product with
        price := none, biomarkers := .flat [], biomarker_count := 0,
        error := some "Failed to load page after multiple attempts" }

/-- Per-source bookkeeping in the persisted catalog. -/
structure SourceInfo where
  last_updated : Nat
  product_count : Nat
deriving DecidableEq, Repr

/-- The persisted catalog (`data/products.json`): timestamp, per-source
info (a dict, modelled as a key-unique association list), total count and
the ordered product sequence. -/
structure Catalog where
  scrape_timestamp : Nat
  sources : List (String × SourceInfo)
  total_products : Nat
  products : List ProductRecord
deriving DecidableEq, Repr

/-- The fresh catalog created when no file exists yet (source lines
634-639), with `datetime.now()` abstracted to a numeric timestamp. -/
def Catalog.fresh (now : Nat) : Catalog :=
  { scrape_timestamp := now, sources := [], total_products := 0, products := [] }

/-- Dict-style update of one source entry. -/
def updateSource (ss : List (String × SourceInfo)) (u : String)
    (f : SourceInfo → SourceInfo) : List (String × SourceInfo) :=
  ss.map (fun kv => if kv.1 = u then (kv.1, f kv.2) else kv)

/-- Source lines 642-646: register the source URL with a zero count if it
is not present yet. -/
def ensureSource (ss : List (String × SourceInfo)) (u : String) (now : Nat) :
    List (String × SourceInfo) :=
  match ss.lookup u with
  | some _ => ss
  | none => ss ++ [(u, ⟨now, 0⟩)]

/-- Embedding of the in-memory merge of `save_product_realtime` (source
lines 620-673): ensure the source entry exists; find the first stored
record with the same `link` and overwrite it in place, else append the
record and increment the source's `product_count`; then recompute
`total_products` as the length of `products` and refresh the source's
`last_updated`. File loading and writing are outside the state passed
here. -/
def save_product_realtime (product : ProductRecord) (base_url : String) (now : Nat)
    (data : Catalog) : Catalog :=
  let ss := ensureSource data.sources base_url now
  match data.products.findIdx? (fun p => p.link == product.link) with
  | some i =>
      let prods := data.products.set i product
      { data with
          products := prods, total_products := prods.length,
          sources := updateSource ss base_url (fun s => { s with last_updated := now }) }
  | none =>
      let prods := data.products ++ [product]
      let ss2 := updateSource ss base_url (fun s => { s with product_count := s.product_count + 1 })
      { data with
          products := prods, total_products := prods.length,
          sources := updateSource ss2 base_url (fun s => { s with last_updated := now }) }

/-- The save step of `main`'s per-stub iteration (source lines 802-806):
a record marked `skipped` is not written to the store. -/
def main_save_step (record : ProductRecord) (url : String) (now : Nat)
    (data : Catalog) : Catalog :=
  if record.skipped then data else save_product_realtime record url now data

/-- Count registered for source `u` in a source table (`0` when the
source is not registered). -/
def srcCountL (ss : List (String × SourceInfo)) (u : String) : Nat :=
  match ss.lookup u with
  | some s => s.product_count
  | none => 0

/-- Count registered for source `u` in the catalog (`0` when the source
is not registered). -/
def srcCount (c : Catalog) (u : String) : Nat :=
  srcCountL c.sources u

/-- The catalog invariants of the data model: unique source keys (a
Python dict), `total_products` equal to the number of records, at most
one record per distinct `link`, and each registered per-source count
equal to the number of records originating from that source. -/
def catalogInv (c : Catalog) : Prop :=
  (c.sources.map Prod.fst).Nodup ∧
  c.total_products = c.products.length ∧
  c.products.Pairwise (fun a b => a.link ≠ b.link) ∧
  ∀ u : String, srcCount c u = (c.products.filter (fun p => p.source_url == u)).length

/-- Expected `goto` events of a round that succeeds at strategy `i`. -/
def roundTrace (round i : Nat) : List LoadEvent :=
  (List.range (i + 1)).map (fun j => LoadEvent.goto round j)

/-- Expected events of the fully failed rounds before round `k`: each
attempts all three strategies and then sleeps its linear backoff. -/
def failedRoundsTrace : Nat → List LoadEvent
  | 0 => []
  | k + 1 => failedRoundsTrace k ++ roundTrace k 2 ++ [LoadEvent.backoff ((k + 1) * 5)]

/-- A document with no biomarker structure at all. -/
def emptyPage : BPage := ⟨.ok false, .ok [], .ok [], .ok []⟩

/-- A document whose ordered-list strategy yields one marker. -/
def ferritinePage : BPage := ⟨.ok false, .ok ["Ferritine"], .ok [], .ok []⟩

/-- A document on which every structural query raises. -/
def failingQueryPage : BPage :=
  ⟨.ok false, .error "Execution context was destroyed",
   .error "Execution context was destroyed", .error "Execution context was destroyed"⟩

/-- A visit in which the page loads but reading the price element
raises; the first extraction attempt then finds one marker. -/
def priceErrorEnv : VisitEnv :=
  ⟨true, .ok false, .ok (), .error "Timeout 10000ms exceeded", ferritinePage, emptyPage, emptyPage⟩

/-- A visit whose price element holds a zero-price text. -/
def zeroPriceEnv : VisitEnv :=
  ⟨true, .ok true, .ok (), .ok (some "€0,-"), ferritinePage, emptyPage, emptyPage⟩

/-- A visit whose price element holds unparseable text; the first
extraction attempt finds one marker. -/
def garbagePriceEnv : VisitEnv :=
  ⟨true, .ok false, .ok (), .ok (some "prijs onbekend"), ferritinePage, emptyPage, emptyPage⟩

/-- A visit whose page never loads. -/
def loadFailEnv : VisitEnv :=
  ⟨false, .ok false, .ok (), .ok none, emptyPage, emptyPage, emptyPage⟩

/-- A product stub as produced by listing traversal. -/
def sampleStub : ProductRecord :=
  { name := "Vitamine Test", link := "https://example.test/vitamine-test",
    source_url := "https://example.test/listing" }

/-- A record for a product discovered in listing A. -/
def linkRecordA : ProductRecord :=
  { name := "Test Kit", link := "https://example.test/kit",
    source_url := "https://example.test/listA" }

/-- The same product (same `link`) rediscovered in listing B. -/
def linkRecordB : ProductRecord :=
  { name := "Test Kit", link := "https://example.test/kit",
    source_url := "https://example.test/listB" }

/-- Merging the same link first from listing A and then from listing B. -/
def crossSourceCatalog : Catalog :=
  save_product_realtime linkRecordB "https://example.test/listB" 1
    (save_product_realtime linkRecordA "https://example.test/listA" 0 (Catalog.fresh 0))

/-- C1: for every `BiomarkerSet`, `count_biomarkers` returns total `0` and
no category count on an empty set; on a set whose first element is a
category group it returns the sum of the group marker counts and the
number of groups; on a flat list it returns the element count and no
category count. -/
theorem count_biomarkers_spec (b : BiomarkerSet) :
    count_biomarkers (.flat []) = (0, none) ∧
    count_biomarkers (.categorized []) = (0, none) ∧
    (∀ g gs, b = .categorized (g :: gs) →
      count_biomarkers b = (((g :: gs).map (fun c => c.2.length)).sum, some (g :: gs).length)) ∧
    (∀ names, b = .flat names → count_biomarkers b = (names.length, none)) := by
  refine ⟨rfl, rfl, fun g gs h => ?_, fun names h => ?_⟩ <;> subst h <;> rfl

/-- Witness for `count_biomarkers_spec` on a concrete categorized set. -/
theorem count_biomarkers_spec_witness :
    count_biomarkers (.categorized [("Hormonen", ["TSH", "FT4"])]) = (2, some 1) :=
  ((count_biomarkers_spec (.categorized [("Hormonen", ["TSH", "FT4"])])).2.2.1
      ("Hormonen", ["TSH", "FT4"]) [] rfl).trans (by decide)

/-- C2: the extractor tries the ordered-list, categorized and flat
unordered-list strategies in strict precedence order and returns the
first non-empty result; in particular, when the ordered-list structure
yields a non-empty result the categorized strategy is never invoked,
whatever the categorized structure holds. -/
theorem get_product_biomarkers_precedence (p : BPage) :
    (∀ ms, p.orderedQuery = .ok ms → ms ≠ [] →
      get_product_biomarkers_traced p = (.flat ms, [.ordered]) ∧
      Strategy.categorized ∉ (get_product_biomarkers_traced p).2) ∧
    (extract_biomarkers_from_ordered_list p = [] →
      ∀ cs, p.categorizedQuery = .ok cs → cs ≠ [] →
        get_product_biomarkers_traced p = (.categorized cs, [.ordered, .categorized])) ∧
    (extract_biomarkers_from_ordered_list p = [] →
      extract_biomarkers_from_content p = [] →
      ∀ ms, p.unorderedQuery = .ok ms → ms ≠ [] →
        get_product_biomarkers_traced p =
          (.flat ms, [.ordered, .categorized, .unordered])) := by
  refine ⟨fun ms hq hne => ?_, fun hol cs hq hne => ?_, fun hol hoc ms hq hne => ?_⟩
  · have h1 : extract_biomarkers_from_ordered_list p = ms := by
      simp [extract_biomarkers_from_ordered_list, hq]
    have h2 : get_product_biomarkers_traced p = (.flat ms, [.ordered]) := by
      simp [get_product_biomarkers_traced, h1, List.isEmpty_iff, hne]
    exact ⟨h2, by simp [h2]⟩
  · have h1 : extract_biomarkers_from_content p = cs := by
      simp [extract_biomarkers_from_content, hq]
    simp [get_product_biomarkers_traced, hol, h1, List.isEmpty_iff, hne]
  · have h1 : unordered_list_items p = ms := by
      simp [unordered_list_items, hq]
    simp [get_product_biomarkers_traced, hol, hoc, h1, List.isEmpty_iff, hne]

/-- Witness for `get_product_biomarkers_precedence` on a document holding
both an ordered-list structure and a categorized structure. -/
theorem get_product_biomarkers_precedence_witness :
    get_product_biomarkers_traced
        ⟨.ok false, .ok ["Ferritine", "Vitamine D"], .ok [("Vitamines", ["Vitamine B12"])], .ok []⟩ =
      (.flat ["Ferritine", "Vitamine D"], [.ordered]) ∧
    Strategy.categorized ∉
      (get_product_biomarkers_traced
        ⟨.ok false, .ok ["Ferritine", "Vitamine D"], .ok [("Vitamines", ["Vitamine B12"])], .ok []⟩).2 :=
  (get_product_biomarkers_precedence
      ⟨.ok false, .ok ["Ferritine", "Vitamine D"], .ok [("Vitamines", ["Vitamine B12"])], .ok []⟩).1
    ["Ferritine", "Vitamine D"] rfl (by decide)

/-- C6 (amended): `get_product_biomarkers` never raises at all: its body
never produces an error — a structural-query failure is caught inside the
strategy that made the query — and when every strategy yields nothing the
result is the empty flat list. -/
theorem extractor_never_raises (p : BPage) :
    get_product_biomarkersE p = .ok (get_product_biomarkers p) ∧
    (extract_biomarkers_from_ordered_list p = [] →
      extract_biomarkers_from_content p = [] →
      unordered_list_items p = [] →
      get_product_biomarkers p = .flat []) := by
  have hok : ∃ b, get_product_biomarkersE p = .ok b := by
    cases h1 : (extract_biomarkers_from_ordered_list p).isEmpty <;>
      cases h2 : (extract_biomarkers_from_content p).isEmpty <;>
        cases h3 : (unordered_list_items p).isEmpty <;>
          simp [get_product_biomarkersE, h1, h2, h3]
  obtain ⟨b, hb⟩ := hok
  refine ⟨by simp [get_product_biomarkers, hb], fun h1 h2 h3 => ?_⟩
  simp [get_product_biomarkers, get_product_biomarkersE, h1, h2, h3]

/-- Witness for `extractor_never_raises` on a document with no biomarker
structure. -/
theorem extractor_never_raises_witness :
    get_product_biomarkers emptyPage = .flat [] :=
  (extractor_never_raises emptyPage).2 rfl rfl rfl

/-- Counterexample to C6 as stated: on a document where the structural
queries raise (a genuine document-API failure), the extractor does not
raise either — the failure is swallowed and an empty flat list is
returned, so it is not the case that a structural-query failure makes
the extractor raise. -/
theorem extractor_raises_counterexample :
    failingQueryPage.orderedQuery = .error "Execution context was destroyed" ∧
    get_product_biomarkersE failingQueryPage = .ok (.flat []) ∧
    get_product_biomarkers failingQueryPage = .flat [] := by
  refine ⟨rfl, rfl, rfl⟩

/-- C7: the price normalizer maps `"€0,-"`, `"0"` and `"€0"` to the
zero-price terminal signal, maps `"€ 149,00"` to the number `149.00`,
and maps garbage text to `None` (never raising, being total); after a
parse failure the visitor records `price = None` and still attempts
biomarker extraction. -/
theorem price_normalizer_spec :
    get_product_price_text "€0,-" = some ⟨0, 0⟩ ∧
    get_product_price_text "0" = some ⟨0, 0⟩ ∧
    get_product_price_text "€0" = some ⟨0, 0⟩ ∧
    convert_price_to_number "€ 149,00" = some ⟨14900, 2⟩ ∧
    get_product_price_text "€ 149,00" = some ⟨14900, 2⟩ ∧
    (Amount.mk 14900 2).toRat = 149 ∧
    convert_price_to_number "prijs onbekend" = none ∧
    get_product_price_text "prijs onbekend" = none ∧
    (∀ (env : VisitEnv) (stub : ProductRecord) (t : String), env.loadOk = true →
      env.priceElement = .ok (some t) →
      get_product_price_text (stripText t) = none →
      (visit_product_page env stub).price = none ∧
      (visit_product_page env stub).biomarkers =
        (biomarker_attempt_loop [env.attemptPage1, env.attemptPage2, env.attemptPage3]
          0 (.flat [])).1) := by
  refine ⟨by decide, by decide, by decide, by decide, by decide, ?_, by decide, by decide, ?_⟩
  · show ((14900 : Nat) : Rat) / (10 : Rat) ^ (2 : Nat) = 149
    norm_num
  · intro env stub t hload hpe hparse
    have hprice : get_product_price env.priceElement = none := by
      simp [get_product_price, hpe, hparse]
    simp only [visit_product_page, hload, hprice]
    norm_num
    split <;> simp

/-- Witness for `price_normalizer_spec` on a concrete garbage-price
visit. -/
theorem price_normalizer_spec_witness :
    (visit_product_page garbagePriceEnv sampleStub).price = none ∧
    (visit_product_page garbagePriceEnv sampleStub).biomarkers =
      (biomarker_attempt_loop
        [garbagePriceEnv.attemptPage1, garbagePriceEnv.attemptPage2, garbagePriceEnv.attemptPage3]
        0 (.flat [])).1 :=
  price_normalizer_spec.2.2.2.2.2.2.2.2 garbagePriceEnv sampleStub "prijs onbekend"
    rfl rfl (by decide)

theorem range_strategies : List.range loadStrategies.length = [0, 1, 2] := rfl

theorem load_round_succeeds (oc : Nat → Nat → Bool) (k i : Nat) (hi : i < 3)
    (hrow : ∀ j, j < i → oc k j = false) (hsucc : oc k i = true) :
    load_round oc k = (roundTrace k i, true) := by
  unfold load_round
  rw [range_strategies]
  interval_cases i
  · simp [round_attempts, hsucc, roundTrace, List.range_succ, List.range_zero]
  · have h0 : oc k 0 = false := hrow 0 (by omega)
    simp [round_attempts, hsucc, h0, roundTrace, List.range_succ, List.range_zero]
  · have h0 : oc k 0 = false := hrow 0 (by omega)
    have h1 : oc k 1 = false := hrow 1 (by omega)
    simp [round_attempts, hsucc, h0, h1, roundTrace, List.range_succ, List.range_zero]

theorem load_round_fails (oc : Nat → Nat → Bool) (k : Nat)
    (hall : ∀ j, j < 3 → oc k j = false) :
    load_round oc k = (roundTrace k 2, false) := by
  unfold load_round
  rw [range_strategies]
  have h0 : oc k 0 = false := hall 0 (by omega)
  have h1 : oc k 1 = false := hall 1 (by omega)
  have h2 : oc k 2 = false := hall 2 (by omega)
  simp [round_attempts, h0, h1, h2, roundTrace, List.range_succ]

theorem mem_failedRoundsTrace (k r j : Nat) :
    LoadEvent.goto r j ∈ failedRoundsTrace k → r < k := by
  induction k with
  | zero => simp [failedRoundsTrace]
  | succ n ih =>
      intro h
      simp only [failedRoundsTrace, List.mem_append, List.mem_singleton, roundTrace,
        List.mem_map, List.mem_range] at h
      rcases h with (h | ⟨a, _, ha⟩) | h
      · exact Nat.lt_succ_of_lt (ih h)
      · cases ha; omega
      · cases h

theorem mem_roundTrace (k i r j : Nat) : LoadEvent.goto r j ∈ roundTrace k i → r = k := by
  simp only [roundTrace, List.mem_map, List.mem_range]
  rintro ⟨a, _, ha⟩
  cases ha
  rfl

/-- C5: if the `i`-th strategy of round `k` is the first `goto` to
succeed, `try_load_page` attempts exactly strategies `0..i` of that round
in order (after the fully failed earlier rounds, each followed by its
linear backoff sleep of `(round + 1) * 5` seconds), returns success
immediately, and never starts a later round; if every strategy of every
round fails it returns failure (rather than raising) after the three
rounds with the two intermediate backoffs. -/
theorem try_load_page_spec (oc : Nat → Nat → Bool) (k i : Nat) :
    (k < 3 → i < 3 →
      (∀ k' j, k' < k → j < 3 → oc k' j = false) →
      (∀ j, j < i → oc k j = false) →
      oc k i = true →
      try_load_page oc = (true, failedRoundsTrace k ++ roundTrace k i) ∧
      (∀ r j, LoadEvent.goto r j ∈ (try_load_page oc).2 → r ≤ k)) ∧
    ((∀ k' j, k' < 3 → j < 3 → oc k' j = false) →
      try_load_page oc = (false, failedRoundsTrace 2 ++ roundTrace 2 2)) := by
  constructor
  · intro hk hi hprev hrow hsucc
    have hmain : try_load_page oc = (true, failedRoundsTrace k ++ roundTrace k i) := by
      interval_cases k
      · have hr0 : load_round oc 0 = (roundTrace 0 i, true) :=
          load_round_succeeds oc 0 i hi hrow hsucc
        simp [try_load_page, load_loop, hr0, failedRoundsTrace]
      · have hr0 : load_round oc 0 = (roundTrace 0 2, false) :=
          load_round_fails oc 0 (fun j hj => hprev 0 j (by omega) hj)
        have hr1 : load_round oc 1 = (roundTrace 1 i, true) :=
          load_round_succeeds oc 1 i hi hrow hsucc
        simp [try_load_page, load_loop, hr0, hr1, failedRoundsTrace]
      · have hr0 : load_round oc 0 = (roundTrace 0 2, false) :=
          load_round_fails oc 0 (fun j hj => hprev 0 j (by omega) hj)
        have hr1 : load_round oc 1 = (roundTrace 1 2, false) :=
          load_round_fails oc 1 (fun j hj => hprev 1 j (by omega) hj)
        have hr2 : load_round oc 2 = (roundTrace 2 i, true) :=
          load_round_succeeds oc 2 i hi hrow hsucc
        simp [try_load_page, load_loop, hr0, hr1, hr2, failedRoundsTrace]
    refine ⟨hmain, fun r j hmem => ?_⟩
    rw [hmain] at hmem
    rcases List.mem_append.mp hmem with h | h
    · exact Nat.le_of_lt (mem_failedRoundsTrace k r j h)
    · exact Nat.le_of_eq (mem_roundTrace k i r j h)
  · intro hall
    have hr0 : load_round oc 0 = (roundTrace 0 2, false) :=
      load_round_fails oc 0 (fun j hj => hall 0 j (by omega) hj)
    have hr1 : load_round oc 1 = (roundTrace 1 2, false) :=
      load_round_fails oc 1 (fun j hj => hall 1 j (by omega) hj)
    have hr2 : load_round oc 2 = (roundTrace 2 2, false) :=
      load_round_fails oc 2 (fun j hj => hall 2 j (by omega) hj)
    simp [try_load_page, load_loop, hr0, hr1, hr2, failedRoundsTrace]

/-- Witness for `try_load_page_spec`: the second strategy of the second
round is the first to succeed. -/
theorem try_load_page_spec_witness :
    try_load_page (fun k j => k == 1 && j == 1) =
      (true, failedRoundsTrace 1 ++ roundTrace 1 1) :=
  ((try_load_page_spec (fun k j => k == 1 && j == 1) 1 1).1 (by omega) (by omega)
    (fun k' j hk hj => by interval_cases k'; interval_cases j <;> rfl)
    (fun j hj => by interval_cases j; rfl) (by decide)).1

/-- C4: when the page loads and the price resolves to the zero-price
terminal signal (parsed amount exactly zero, or stripped raw text among
the known zero patterns), the visitor returns a record with
`skipped = true`, a reason, empty biomarkers and a zero biomarker count;
the extraction attempts are never consulted (the result is the same for
any attempt outcomes); and the run's save step does not write the record
into the persisted catalog. -/
theorem zero_price_skip_spec (env : VisitEnv) (stub : ProductRecord) (url : String)
    (now : Nat) (data : Catalog) (t : String)
    (hload : env.loadOk = true)
    (hpt : env.priceElement = .ok (some t))
    (hzero : (∃ a, convert_price_to_number (stripText t) = some a ∧ amountIsZero a = true) ∨
      stripText t ∈ zeroPriceTexts) :
    visit_product_page env stub =
      { stub with
          price := some ⟨0, 0⟩, biomarkers := .flat [], biomarker_count := 0,
          skipped := true, reason := some "Zero price product" } ∧
    (∀ p1 p2 p3, visit_product_page
        { env with attemptPage1 := p1, attemptPage2 := p2, attemptPage3 := p3 } stub =
      visit_product_page env stub) ∧
    main_save_step (visit_product_page env stub) url now data = data := by
  have hcond : (optAmountIsZero (convert_price_to_number (stripText t)) ||
      zeroPriceTexts.contains (stripText t)) = true := by
    rcases hzero with ⟨a, ha, hz⟩ | hmem
    · simp [ha, optAmountIsZero, hz]
    · simp [hmem]
  have hsig : get_product_price env.priceElement = some ⟨0, 0⟩ := by
    simp only [get_product_price, hpt, get_product_price_text]
    rw [hcond]
    simp
  have hrec : visit_product_page env stub =
      { stub with
          price := some ⟨0, 0⟩, biomarkers := .flat [], biomarker_count := 0,
          skipped := true, reason := some "Zero price product" } := by
    simp [visit_product_page, hload, hsig, amountIsZero]
  refine ⟨hrec, fun p1 p2 p3 => ?_, ?_⟩
  · have hrec2 : visit_product_page
        { env with attemptPage1 := p1, attemptPage2 := p2, attemptPage3 := p3 } stub =
        { stub with
            price := some ⟨0, 0⟩, biomarkers := .flat [], biomarker_count := 0,
            skipped := true, reason := some "Zero price product" } := by
      simp [visit_product_page, hload, hsig, amountIsZero]
    rw [hrec2, hrec]
  · rw [hrec]
    simp [main_save_step]

/-- Witness for `zero_price_skip_spec` on a concrete zero-price visit. -/
theorem zero_price_skip_spec_witness :
    visit_product_page zeroPriceEnv sampleStub =
      { sampleStub with
          price := some ⟨0, 0⟩, biomarkers := .flat [], biomarker_count := 0,
          skipped := true, reason := some "Zero price product" } ∧
    main_save_step (visit_product_page zeroPriceEnv sampleStub)
      "https://example.test/listing" 7 (Catalog.fresh 7) = Catalog.fresh 7 :=
  ⟨(zero_price_skip_spec zeroPriceEnv sampleStub "https://example.test/listing" 7
      (Catalog.fresh 7) "€0,-" rfl rfl (Or.inr (by decide))).1,
   (zero_price_skip_spec zeroPriceEnv sampleStub "https://example.test/listing" 7
      (Catalog.fresh 7) "€0,-" rfl rfl (Or.inr (by decide))).2.2⟩

/-- C9 (amended): only a page-load failure produces the visitor-boundary
error record (`price = None`, `biomarkers = []`, `error` set); exceptions
inside the later steps are caught within those steps — a cookie-handling
or content-wait exception does not change the returned record at all, and
a price-resolution exception yields `price = None` with biomarker
extraction still attempted; in every case `visit_product_page` returns a
record rather than propagating an exception. -/
theorem visitor_error_handling (env : VisitEnv) (stub : ProductRecord) :
    (env.loadOk = false →
      visit_product_page env stub =
        { stub with
            price := none, biomarkers := .flat [], biomarker_count := 0,
            error := some "Failed to load page after multiple attempts" }) ∧
    (∀ e, env.loadOk = true → env.priceElement = .error e →
      (visit_product_page env stub).price = none ∧
      (visit_product_page env stub).biomarkers =
        (biomarker_attempt_loop [env.attemptPage1, env.attemptPage2, env.attemptPage3]
          0 (.flat [])).1) ∧
    (∀ o o', visit_product_page { env with cookieOutcome := o } stub =
      visit_product_page { env with cookieOutcome := o' } stub) ∧
    (∀ w w', visit_product_page { env with contentWaitOutcome := w } stub =
      visit_product_page { env with contentWaitOutcome := w' } stub) := by
  refine ⟨fun h => ?_, fun e hload hpe => ?_, fun o o' => rfl, fun w w' => rfl⟩
  · simp [visit_product_page, h]
  · have hprice : get_product_price env.priceElement = none := by
      simp [get_product_price, hpe]
    simp only [visit_product_page, hload, hprice]
    norm_num
    split <;> simp

/-- Witness for `visitor_error_handling` on a concrete failed load. -/
theorem visitor_error_handling_witness :
    visit_product_page loadFailEnv sampleStub =
      { sampleStub with
          price := none, biomarkers := .flat [], biomarker_count := 0,
          error := some "Failed to load page after multiple attempts" } :=
  (visitor_error_handling loadFailEnv sampleStub).1 rfl

/-- Counterexample to C9 as stated: a visit in which the price-resolution
step raises does not produce the claimed error record — the exception is
caught inside `get_product_price`, the visitor continues, biomarker
extraction runs and succeeds, and the returned record has non-empty
biomarkers and no error set. -/
theorem visitor_boundary_counterexample :
    (visit_product_page priceErrorEnv sampleStub).price = none ∧
    (visit_product_page priceErrorEnv sampleStub).biomarkers = .flat ["Ferritine"] ∧
    (visit_product_page priceErrorEnv sampleStub).biomarkers ≠ .flat [] ∧
    (visit_product_page priceErrorEnv sampleStub).error = none := by
  decide

/-- C10: every record returned by `visit_product_page` — via the success
path, the zero-price skip path, or the error path — carries a
`biomarker_count` equal to the total count `count_biomarkers` computes
for its `biomarkers` value; in particular the load-failure path returns
empty biomarkers with count `0`. -/
theorem biomarker_count_consistency (env : VisitEnv) (stub : ProductRecord) :
    (visit_product_page env stub).biomarker_count =
      (count_biomarkers (visit_product_page env stub).biomarkers).1 ∧
    (env.loadOk = false →
      (visit_product_page env stub).biomarkers = .flat [] ∧
      (visit_product_page env stub).biomarker_count = 0) := by
  constructor
  · cases hl : env.loadOk
    · simp [visit_product_page, hl, count_biomarkers]
    · simp only [visit_product_page, hl]
      norm_num
      split
      · simp [count_biomarkers]
      · split <;> simp
  · intro h
    simp [visit_product_page, h, count_biomarkers]

/-- Witness for `biomarker_count_consistency` on a concrete failed
load. -/
theorem biomarker_count_consistency_witness :
    (visit_product_page loadFailEnv sampleStub).biomarkers = .flat [] ∧
    (visit_product_page loadFailEnv sampleStub).biomarker_count = 0 :=
  (biomarker_count_consistency loadFailEnv sampleStub).2 rfl

theorem updateSource_nil (u : String) (f : SourceInfo → SourceInfo) :
    updateSource [] u f = [] := rfl

theorem updateSource_cons (kv : String × SourceInfo) (rest : List (String × SourceInfo))
    (u : String) (f : SourceInfo → SourceInfo) :
    updateSource (kv :: rest) u f =
      (if kv.1 = u then (kv.1, f kv.2) else kv) :: updateSource rest u f := rfl

theorem lookup_updateSource_self (ss : List (String × SourceInfo)) (u : String)
    (f : SourceInfo → SourceInfo) :
    (updateSource ss u f).lookup u = (ss.lookup u).map f := by
  induction ss with
  | nil => rfl
  | cons kv rest ih =>
      obtain ⟨k, v⟩ := kv
      by_cases h : k = u
      · subst h
        simp [updateSource_cons, List.lookup_cons]
      · have hne : (u == k) = false := beq_eq_false_iff_ne.mpr (fun hh => h hh.symm)
        simp [updateSource_cons, List.lookup_cons, h, hne, ih]

theorem lookup_updateSource_ne (ss : List (String × SourceInfo)) (u u' : String)
    (f : SourceInfo → SourceInfo) (h : u' ≠ u) :
    (updateSource ss u f).lookup u' = ss.lookup u' := by
  induction ss with
  | nil => rfl
  | cons kv rest ih =>
      obtain ⟨k, v⟩ := kv
      by_cases hk : k = u
      · subst hk
        have hne : (u' == k) = false := beq_eq_false_iff_ne.mpr h
        simp [updateSource_cons, List.lookup_cons, hne, ih]
      · cases hbeq : (u' == k) <;>
          simp [updateSource_cons, List.lookup_cons, hk, hbeq, ih]

theorem keys_updateSource (ss : List (String × SourceInfo)) (u : String)
    (f : SourceInfo → SourceInfo) :
    (updateSource ss u f).map Prod.fst = ss.map Prod.fst := by
  induction ss with
  | nil => rfl
  | cons kv rest ih =>
      obtain ⟨k, v⟩ := kv
      by_cases h : k = u <;> simp [updateSource_cons, h, ih]

theorem lookup_append_of_none (l₁ l₂ : List (String × SourceInfo)) (a : String)
    (h : l₁.lookup a = none) : (l₁ ++ l₂).lookup a = l₂.lookup a := by
  induction l₁ with
  | nil => rfl
  | cons kv rest ih =>
      obtain ⟨k, v⟩ := kv
      cases hbeq : (a == k)
      · rw [List.lookup_cons] at h
        simp only [hbeq] at h
        simp [List.lookup_cons, hbeq, ih h]
      · rw [List.lookup_cons] at h
        simp only [hbeq] at h
        cases h

theorem lookup_append_of_some (l₁ l₂ : List (String × SourceInfo)) (a : String)
    (s : SourceInfo) (h : l₁.lookup a = some s) : (l₁ ++ l₂).lookup a = some s := by
  induction l₁ with
  | nil => cases h
  | cons kv rest ih =>
      obtain ⟨k, v⟩ := kv
      cases hbeq : (a == k)
      · rw [List.lookup_cons] at h
        simp only [hbeq] at h
        simp [List.lookup_cons, hbeq, ih h]
      · rw [List.lookup_cons] at h
        simp only [hbeq] at h
        simp [List.lookup_cons, hbeq, h]

theorem not_mem_keys_of_lookup_none (ss : List (String × SourceInfo)) (u : String)
    (h : ss.lookup u = none) : u ∉ ss.map Prod.fst := by
  induction ss with
  | nil => simp
  | cons kv rest ih =>
      obtain ⟨k, v⟩ := kv
      cases hbeq : (u == k)
      · rw [List.lookup_cons] at h
        simp only [hbeq] at h
        have hne : u ≠ k := beq_eq_false_iff_ne.mp hbeq
        simp [hne, ih h]
      · rw [List.lookup_cons] at h
        simp only [hbeq] at h
        cases h

theorem ensureSource_of_lookup_some (ss : List (String × SourceInfo)) (u : String)
    (now : Nat) (s : SourceInfo) (h : ss.lookup u = some s) :
    ensureSource ss u now = ss := by
  unfold ensureSource
  rw [h]

theorem ensureSource_of_lookup_none (ss : List (String × SourceInfo)) (u : String)
    (now : Nat) (h : ss.lookup u = none) :
    ensureSource ss u now = ss ++ [(u, ⟨now, 0⟩)] := by
  unfold ensureSource
  rw [h]

theorem srcCountL_updateSource_last (ss : List (String × SourceInfo)) (base : String)
    (now : Nat) (u : String) :
    srcCountL (updateSource ss base (fun s => { s with last_updated := now })) u =
      srcCountL ss u := by
  by_cases h : u = base
  · subst h
    unfold srcCountL
    rw [lookup_updateSource_self]
    cases ss.lookup u <;> rfl
  · unfold srcCountL
    rw [lookup_updateSource_ne _ _ _ _ h]

theorem srcCountL_updateSource_other (ss : List (String × SourceInfo)) (base u : String)
    (f : SourceInfo → SourceInfo) (h : u ≠ base) :
    srcCountL (updateSource ss base f) u = srcCountL ss u := by
  unfold srcCountL
  rw [lookup_updateSource_ne _ _ _ _ h]

theorem srcCountL_inc_self (ss : List (String × SourceInfo)) (base : String)
    (s : SourceInfo) (h : ss.lookup base = some s) :
    srcCountL (updateSource ss base
        (fun t => { t with product_count := t.product_count + 1 })) base =
      s.product_count + 1 := by
  unfold srcCountL
  rw [lookup_updateSource_self, h]
  rfl

theorem srcCountL_ensure (ss : List (String × SourceInfo)) (base : String) (now : Nat)
    (u : String) : srcCountL (ensureSource ss base now) u = srcCountL ss u := by
  cases h : ss.lookup base
  · rw [ensureSource_of_lookup_none _ _ _ h]
    by_cases hu : u = base
    · subst hu
      unfold srcCountL
      rw [lookup_append_of_none _ _ _ h, h]
      simp [List.lookup_cons]
    · unfold srcCountL
      cases h2 : ss.lookup u
      · rw [lookup_append_of_none _ _ _ h2]
        have hbeq : (u == base) = false := beq_eq_false_iff_ne.mpr hu
        simp [List.lookup_cons, hbeq]
      · rw [lookup_append_of_some _ _ _ _ h2]
  · rw [ensureSource_of_lookup_some _ _ _ _ h]

theorem set_append_length (l : List ProductRecord) (a b : ProductRecord) :
    (l ++ [a]).set l.length b = l ++ [b] := by
  induction l with
  | nil => rfl
  | cons x xs ih => simp [List.set_cons_succ, ih]

theorem findIdx?_append_singleton_of_none (l : List ProductRecord) (a : ProductRecord)
    (q : ProductRecord → Bool) (h : ∀ x ∈ l, q x = false) (ha : q a = true) :
    (l ++ [a]).findIdx? q = some l.length := by
  apply List.findIdx?_eq_some_iff_getElem.mpr
  refine ⟨by simp, ?_, ?_⟩
  · rw [List.getElem_append_right (Nat.le_refl l.length)]
    simpa using ha
  · intro j hj
    have hjl : j < l.length := hj
    rw [List.getElem_append_left hjl]
    simp [h _ (List.getElem_mem hjl)]

theorem pairwise_ne_link_set (l : List ProductRecord) (i : Nat) (r : ProductRecord)
    (hi : i < l.length)
    (hl : l.Pairwise (fun a b => a.link ≠ b.link))
    (hlink : l[i].link = r.link) :
    (l.set i r).Pairwise (fun a b => a.link ≠ b.link) := by
  induction l generalizing i with
  | nil => simp at hi
  | cons x xs ih =>
      rw [List.pairwise_cons] at hl
      obtain ⟨hx, hxs⟩ := hl
      rcases i with _ | j
      · rw [List.set_cons_zero, List.pairwise_cons]
        have hx0 : x.link = r.link := by simpa using hlink
        exact ⟨fun y hy => hx0 ▸ hx y hy, hxs⟩
      · have hj : j < xs.length := by simpa using hi
        have hlinkj : xs[j].link = r.link := by simpa using hlink
        rw [List.set_cons_succ, List.pairwise_cons]
        refine ⟨fun y hy => ?_, ih j hj hxs hlinkj⟩
        rcases List.mem_or_eq_of_mem_set hy with hmem | heq
        · exact hx y hmem
        · subst heq
          rw [← hlinkj]
          exact hx _ (List.getElem_mem hj)

theorem filter_length_set_same_source (l : List ProductRecord) (i : Nat)
    (r : ProductRecord) (u : String) (hi : i < l.length)
    (hsrc : l[i].source_url = r.source_url) :
    ((l.set i r).filter (fun p => p.source_url == u)).length =
      (l.filter (fun p => p.source_url == u)).length := by
  induction l generalizing i with
  | nil => simp at hi
  | cons x xs ih =>
      rcases i with _ | j
      · have hx : x.source_url = r.source_url := by simpa using hsrc
        rw [List.set_cons_zero]
        simp only [List.filter_cons, hx]
        split <;> simp
      · have hj : j < xs.length := by simpa using hi
        have hsrcj : xs[j].source_url = r.source_url := by simpa using hsrc
        rw [List.set_cons_succ]
        simp only [List.filter_cons]
        split <;> simp [ih j hj hsrcj]

/-- C3: merging a record whose `link` already occurs in the catalog
overwrites the stored record in place at its existing position, leaves
`total_products` unchanged (the catalog satisfying its own
`total_products = len(products)` invariant) and leaves the source's
`product_count` unchanged while refreshing its `last_updated`; merging a
record with a fresh `link` appends it and increments the source's
`product_count` by one; and merging the same `link` twice (starting from
a catalog without it) leaves exactly one record holding the second
payload, with `total_products` and the source's `product_count`
unchanged by the second merge. -/
theorem save_product_realtime_merge_spec (data : Catalog) (r : ProductRecord)
    (base_url : String) (now : Nat) :
    (∀ i, data.products.findIdx? (fun p => p.link == r.link) = some i →
      (save_product_realtime r base_url now data).products = data.products.set i r ∧
      (save_product_realtime r base_url now data).total_products = data.products.length ∧
      (data.total_products = data.products.length →
        (save_product_realtime r base_url now data).total_products = data.total_products) ∧
      ∀ s, data.sources.lookup base_url = some s →
        (save_product_realtime r base_url now data).sources.lookup base_url =
          some ⟨now, s.product_count⟩) ∧
    (data.products.findIdx? (fun p => p.link == r.link) = none →
      (save_product_realtime r base_url now data).products = data.products ++ [r] ∧
      (save_product_realtime r base_url now data).total_products = data.products.length + 1 ∧
      ∀ s, data.sources.lookup base_url = some s →
        (save_product_realtime r base_url now data).sources.lookup base_url =
          some ⟨now, s.product_count + 1⟩) ∧
    (∀ r2 now1 now2, (∀ p ∈ data.products, p.link ≠ r.link) → r2.link = r.link →
      (save_product_realtime r2 base_url now2
          (save_product_realtime r base_url now1 data)).products =
        data.products ++ [r2] ∧
      ((save_product_realtime r2 base_url now2
          (save_product_realtime r base_url now1 data)).products.filter
            (fun p => p.link == r.link)).length = 1 ∧
      (save_product_realtime r2 base_url now2
          (save_product_realtime r base_url now1 data)).total_products =
        (save_product_realtime r base_url now1 data).total_products ∧
      srcCount (save_product_realtime r2 base_url now2
          (save_product_realtime r base_url now1 data)) base_url =
        srcCount (save_product_realtime r base_url now1 data) base_url) := by
  refine ⟨fun i hfind => ?_, fun hfind => ?_, fun r2 now1 now2 hno hl2 => ?_⟩
  · simp only [save_product_realtime, hfind]
    refine ⟨by trivial, by simp, fun ht => by simp [ht], fun s hs => ?_⟩
    rw [ensureSource_of_lookup_some _ _ _ _ hs, lookup_updateSource_self, hs]
    rfl
  · simp only [save_product_realtime, hfind]
    refine ⟨by trivial, by simp, fun s hs => ?_⟩
    rw [ensureSource_of_lookup_some _ _ _ _ hs, lookup_updateSource_self,
      lookup_updateSource_self, hs]
    rfl
  · have hfind1 : data.products.findIdx? (fun p => p.link == r.link) = none :=
      List.findIdx?_eq_none_iff.mpr (fun x hx => beq_eq_false_iff_ne.mpr (hno x hx))
    set d1 := save_product_realtime r base_url now1 data with hd1
    have hd1p : d1.products = data.products ++ [r] := by
      rw [hd1]
      simp only [save_product_realtime, hfind1]
    have hd1t : d1.total_products = (data.products ++ [r]).length := by
      rw [hd1]
      simp [save_product_realtime, hfind1]
    have hq : ∀ x ∈ data.products, (x.link == r2.link) = false := fun x hx =>
      beq_eq_false_iff_ne.mpr (by rw [hl2]; exact hno x hx)
    have hfind2 : d1.products.findIdx? (fun p => p.link == r2.link) =
        some data.products.length := by
      rw [hd1p]
      exact findIdx?_append_singleton_of_none _ _ _ hq (by simp [hl2])
    have hprods : (save_product_realtime r2 base_url now2 d1).products =
        data.products ++ [r2] := by
      simp only [save_product_realtime, hfind2]
      rw [hd1p, set_append_length]
    refine ⟨hprods, ?_, ?_, ?_⟩
    · rw [hprods, List.filter_append]
      have hfl : data.products.filter (fun p => p.link == r.link) = [] := by
        apply List.filter_eq_nil_iff.mpr
        intro a ha
        simp [hno a ha]
      rw [hfl]
      simp [hl2]
    · simp only [save_product_realtime, hfind2]
      rw [hd1t, hd1p]
      simp
    · show srcCountL (save_product_realtime r2 base_url now2 d1).sources base_url =
        srcCountL d1.sources base_url
      simp only [save_product_realtime, hfind2]
      rw [srcCountL_updateSource_last, srcCountL_ensure]

/-- Witness for `save_product_realtime_merge_spec`: the same link merged
twice into an empty catalog. -/
theorem save_product_realtime_merge_spec_witness :
    (save_product_realtime linkRecordB "https://example.test/listA" 2
        (save_product_realtime linkRecordA "https://example.test/listA" 1
          (Catalog.fresh 1))).products =
      (Catalog.fresh 1).products ++ [linkRecordB] ∧
    ((save_product_realtime linkRecordB "https://example.test/listA" 2
        (save_product_realtime linkRecordA "https://example.test/listA" 1
          (Catalog.fresh 1))).products.filter
        (fun p => p.link == linkRecordA.link)).length = 1 :=
  ⟨((save_product_realtime_merge_spec (Catalog.fresh 1) linkRecordA
      "https://example.test/listA" 1).2.2 linkRecordB 1 2
      (fun p hp => absurd hp (by simp [Catalog.fresh])) rfl).1,
   ((save_product_realtime_merge_spec (Catalog.fresh 1) linkRecordA
      "https://example.test/listA" 1).2.2 linkRecordB 1 2
      (fun p hp => absurd hp (by simp [Catalog.fresh])) rfl).2.1⟩

/-- C8 (amended): after a merge the catalog invariants —
`total_products = len(products)`, at most one record per `link`, and
per-source counts matching the records — are preserved from any
invariant-satisfying state, provided the merged record's `source_url`
equals the merge's `base_url` and any already-stored record with the same
`link` carries that same `source_url`; a merge of an existing link under
a different source breaks the per-source count invariant (see the
counterexample). -/
theorem save_preserves_catalog_invariants (data : Catalog) (r : ProductRecord)
    (base_url : String) (now : Nat)
    (hinv : catalogInv data)
    (hsrc : r.source_url = base_url)
    (hsame : ∀ p ∈ data.products, p.link = r.link → p.source_url = base_url) :
    catalogInv (save_product_realtime r base_url now data) := by
  obtain ⟨hnodup, -, hpair, hcount⟩ := hinv
  cases hfind : data.products.findIdx? (fun p => p.link == r.link) with
  | some i =>
      obtain ⟨hi, hqi, -⟩ := List.findIdx?_eq_some_iff_getElem.mp hfind
      have hlink : data.products[i].link = r.link := by simpa using hqi
      have hsrci : data.products[i].source_url = r.source_url := by
        rw [hsrc]
        exact hsame _ (List.getElem_mem hi) hlink
      have hsrcb : data.products[i].source_url = base_url := hsrci.trans hsrc
      have hmemf : data.products[i] ∈
          data.products.filter (fun p => p.source_url == base_url) :=
        List.mem_filter.mpr ⟨List.getElem_mem hi, by simp [hsrcb]⟩
      have hsome : ∃ s, data.sources.lookup base_url = some s := by
        cases h : data.sources.lookup base_url with
        | none =>
            exfalso
            have hc := hcount base_url
            unfold srcCount srcCountL at hc
            rw [h] at hc
            have hpos := List.length_pos_of_mem hmemf
            rw [← hc] at hpos
            exact Nat.lt_irrefl 0 hpos
        | some s => exact ⟨s, rfl⟩
      obtain ⟨s0, hs0⟩ := hsome
      have hens : ensureSource data.sources base_url now = data.sources :=
        ensureSource_of_lookup_some _ _ _ _ hs0
      simp only [save_product_realtime, hfind]
      refine ⟨?_, by simp, pairwise_ne_link_set _ i r hi hpair hlink, fun u => ?_⟩
      · rw [hens, keys_updateSource]
        exact hnodup
      · show srcCountL
          (updateSource (ensureSource data.sources base_url now) base_url
            (fun s => { s with last_updated := now })) u = _
        rw [hens, srcCountL_updateSource_last]
        have := hcount u
        unfold srcCount at this
        rw [this]
        exact (filter_length_set_same_source data.products i r u hi hsrci).symm
  | none =>
      have hnot : ∀ x ∈ data.products, (x.link == r.link) = false :=
        List.findIdx?_eq_none_iff.mp hfind
      simp only [save_product_realtime, hfind]
      refine ⟨?_, by simp, ?_, fun u => ?_⟩
      · rw [keys_updateSource, keys_updateSource]
        cases hl : data.sources.lookup base_url with
        | some s => rw [ensureSource_of_lookup_some _ _ _ _ hl]; exact hnodup
        | none =>
            rw [ensureSource_of_lookup_none _ _ _ hl, List.map_append,
              List.nodup_append]
            refine ⟨hnodup, by simp, fun a ha hb => ?_⟩
            simp only [List.map_cons, List.map_nil, List.mem_singleton] at hb
            subst hb
            exact not_mem_keys_of_lookup_none _ _ hl ha
      · rw [List.pairwise_append]
        refine ⟨hpair, by simp, fun a ha b hb => ?_⟩
        simp only [List.mem_singleton] at hb
        subst hb
        exact beq_eq_false_iff_ne.mp (hnot a ha)
      · show srcCountL
          (updateSource
            (updateSource (ensureSource data.sources base_url now) base_url
              (fun s => { s with product_count := s.product_count + 1 }))
            base_url (fun s => { s with last_updated := now })) u = _
        rw [srcCountL_updateSource_last]
        rw [List.filter_append]
        by_cases hu : u = base_url
        · subst hu
          have hru : (r.source_url == u) = true := by simp [hsrc]
          cases hl : data.sources.lookup u with
          | some s =>
              rw [ensureSource_of_lookup_some _ _ _ _ hl,
                srcCountL_inc_self _ _ _ hl]
              have hc := hcount u
              unfold srcCount srcCountL at hc
              rw [hl] at hc
              simp [List.filter_cons, hru, ← hc]
          | none =>
              have hl2 : (ensureSource data.sources u now).lookup u =
                  some ⟨now, 0⟩ := by
                rw [ensureSource_of_lookup_none _ _ _ hl,
                  lookup_append_of_none _ _ _ hl]
                simp [List.lookup_cons]
              rw [srcCountL_inc_self _ _ _ hl2]
              have hc := hcount u
              unfold srcCount srcCountL at hc
              rw [hl] at hc
              simp [List.filter_cons, hru, ← hc]
        · rw [srcCountL_updateSource_other _ _ _ _ hu, srcCountL_ensure]
          have hru : (r.source_url == u) = false := by
            simp [hsrc]
            exact fun hh => hu hh.symm
          have hc := hcount u
          unfold srcCount at hc
          rw [hc]
          simp [List.filter_cons, hru]

/-- Witness for `save_preserves_catalog_invariants`: a first merge into a
fresh catalog. -/
theorem save_preserves_catalog_invariants_witness :
    catalogInv (save_product_realtime linkRecordA "https://example.test/listA" 3
      (Catalog.fresh 3)) :=
  save_preserves_catalog_invariants (Catalog.fresh 3) linkRecordA
    "https://example.test/listA" 3
    ⟨by simp [Catalog.fresh], rfl, by simp [Catalog.fresh], fun u => rfl⟩
    rfl
    (fun p hp => absurd hp (by simp [Catalog.fresh]))

/-- Counterexample to C8 as stated: merging the same `link` first from
listing A and then from listing B (both merges starting from
invariant-satisfying states) leaves `sources` counting one record for A
and none for B, while the single stored record originates from B — the
per-source count invariant fails. -/
theorem catalog_invariants_counterexample :
    catalogInv (Catalog.fresh 0) ∧ ¬ catalogInv crossSourceCatalog := by
  constructor
  · exact ⟨by simp [Catalog.fresh], rfl, by simp [Catalog.fresh], fun u => rfl⟩
  · rintro ⟨-, -, -, hcount⟩
    exact absurd (hcount "https://example.test/listB") (by decide)
